import Mathlib

/-!
Shallow embedding of the transcoding-orchestration core of the
video-streaming-platform repository, together with theorems checking the
specification's claims against it.

The embedded code comes from:
* `services/transcoding-service/src/services/ffmpeg.service.ts`
  (quality filtering in `transcodeMultiQuality`, the no-upscale rescale in
  `transcodeQuality`, and `validateTranscodingOutput`),
* `services/transcoding-service/src/services/hls-playlist.service.ts`
  (`createMasterPlaylistContent`),
* `services/transcoding-service/src/services/error-handler.service.ts`
  (`handleError` classification and `getRecoveryStrategy`),
* `services/transcoding-service/src/queue/transcoding-queue.ts`
  (the Bull queue's default retry options),
* `services/transcoding-service/src/worker.ts` (the Kafka worker's
  `updateProgress` / `transcodeVideo` progress pipeline),
* `services/transcoding-service/src/worker/simple-worker.ts`
  (`processJob` failure cleanup).

Numbers are embedded as `Nat`/`Int`, JavaScript floating-point arithmetic
on ratios as exact `ℚ` arithmetic (all quantities involved are small
integer ratios), and `Math.round` as `jsRound` (floor of `x + 1/2`, which
is JavaScript's rounding of ties towards positive infinity).  Fallible
filesystem access is embedded as `Except String`-valued oracles.
-/

/-- A quality profile as in `src/types/index.ts`: a name such as `"360p"`,
a resolution string `"WxH"`, and a bitrate in kbps. -/
structure QualityProfile where
  name : String
  resolution : String
  bitrate : Nat
deriving DecidableEq

/-- Prefix test on character lists (needle, then haystack). -/
def charsPrefixMatch : List Char → List Char → Bool
  | [], _ => true
  | _ :: _, [] => false
  | c :: cs, d :: ds => c == d && charsPrefixMatch cs ds

/-- Substring occurrence test on character lists (needle, then haystack). -/
def charsContain (needle : List Char) : List Char → Bool
  | [] => charsPrefixMatch needle []
  | d :: ds => charsPrefixMatch needle (d :: ds) || charsContain needle ds

/-- JavaScript's `String.prototype.includes`. -/
def strIncludes (hay needle : String) : Bool :=
  charsContain needle.data hay.data

/-- JavaScript's `String.prototype.endsWith`. -/
def strEndsWith (hay needle : String) : Bool :=
  charsPrefixMatch needle.data.reverse hay.data.reverse

/-- JavaScript's `String.prototype.startsWith`. -/
def strStartsWith (hay needle : String) : Bool :=
  charsPrefixMatch needle.data hay.data

/-- Split a character list at every occurrence of the separator, as
JavaScript's `String.prototype.split` with a one-character separator. -/
def splitOnChar (sep : Char) : List Char → List (List Char)
  | [] => [[]]
  | c :: cs =>
    let r := splitOnChar sep cs
    if c == sep then [] :: r
    else
      match r with
      | [] => [[c]]
      | g :: gs => (c :: g) :: gs

/-- JavaScript's `Number(...)` restricted to the non-negative decimal
integers that appear in resolution strings (`Number("") = 0`, any
non-digit yields no number, matching `NaN`). -/
def charsToNat? (l : List Char) : Option Nat :=
  l.foldl
    (fun acc c =>
      match acc with
      | none => none
      | some n => if c.isDigit then some (n * 10 + (c.toNat - 48)) else none)
    (some 0)

/-- `resolution.split('x').map(Number)` destructured into `[width, height]`,
as in `ffmpeg.service.ts`; `none` models the `NaN` outcomes, for which all
of the source's numeric comparisons are false. -/
def parseResolution (s : String) : Option (Nat × Nat) :=
  match splitOnChar 'x' s.data with
  | [w, h] =>
    match charsToNat? w, charsToNat? h with
    | some tw, some th => some (tw, th)
    | _, _ => none
  | _ => none

/-- The per-profile tolerance test of `FFmpegService.transcodeMultiQuality`
(ffmpeg.service.ts lines 253-259): keep a profile exactly when
`inputWidth/targetWidth >= 0.8 && inputHeight/targetHeight >= 0.8`. -/
def qualityPasses (inputWidth inputHeight : Nat) (q : QualityProfile) : Bool :=
  match parseResolution q.resolution with
  | some (targetWidth, targetHeight) =>
    decide ((0.8 : ℚ) ≤ (inputWidth : ℚ) / (targetWidth : ℚ)) &&
    decide ((0.8 : ℚ) ≤ (inputHeight : ℚ) / (targetHeight : ℚ))
  | none => false

/-- `const validQualities = qualities.filter(...)` of
`transcodeMultiQuality`. -/
def validQualities (inputWidth inputHeight : Nat)
    (qualities : List QualityProfile) : List QualityProfile :=
  qualities.filter (qualityPasses inputWidth inputHeight)

/-- Kernel-evaluable form of the tolerance test: for naturals,
`0.8 ≤ a / b` over `ℚ` is `0 < b ∧ 4 * b ≤ 5 * a`. -/
theorem ratioPasses_iff (a b : Nat) :
    ((0.8 : ℚ) ≤ (a : ℚ) / (b : ℚ)) ↔ (0 < b ∧ 4 * b ≤ 5 * a) := by
  rcases Nat.eq_zero_or_pos b with hb | hb
  · subst hb
    simp
    norm_num
  · have hbq : (0 : ℚ) < (b : ℚ) := by exact_mod_cast hb
    rw [le_div_iff₀ hbq]
    constructor
    · intro h
      refine ⟨hb, ?_⟩
      have h4 : (4 * b : ℚ) ≤ 5 * a := by nlinarith
      exact_mod_cast h4
    · rintro ⟨_, h⟩
      have h4 : (4 * b : ℚ) ≤ 5 * a := by exact_mod_cast h
      nlinarith

/-- `qualityPasses` with the rational comparisons replaced by the
equivalent natural-number comparisons, so that concrete instances can be
evaluated by `decide`. -/
def qualityPassesE (inputWidth inputHeight : Nat) (q : QualityProfile) : Bool :=
  match parseResolution q.resolution with
  | some (targetWidth, targetHeight) =>
    (decide (0 < targetWidth) && decide (4 * targetWidth ≤ 5 * inputWidth)) &&
    (decide (0 < targetHeight) && decide (4 * targetHeight ≤ 5 * inputHeight))
  | none => false

theorem qualityPasses_eval (inputWidth inputHeight : Nat)
    (q : QualityProfile) :
    qualityPasses inputWidth inputHeight q =
      qualityPassesE inputWidth inputHeight q := by
  unfold qualityPasses qualityPassesE
  cases hp : parseResolution q.resolution with
  | none => rfl
  | some wh =>
    obtain ⟨tW, tH⟩ := wh
    dsimp only
    rw [Bool.eq_iff_iff]
    simp only [Bool.and_eq_true, decide_eq_true_eq]
    rw [ratioPasses_iff, ratioPasses_iff]

theorem validQualities_eval (inputWidth inputHeight : Nat)
    (qualities : List QualityProfile) :
    validQualities inputWidth inputHeight qualities =
      qualities.filter (qualityPassesE inputWidth inputHeight) := by
  unfold validQualities
  exact List.filter_congr (fun q _ => qualityPasses_eval inputWidth inputHeight q)

/-- The quality-selection step of `transcodeMultiQuality`
(ffmpeg.service.ts lines 252-263): filter, then throw when the filtered
list is empty. -/
def multiQualitySelect (inputWidth inputHeight : Nat)
    (qualities : List QualityProfile) : Except String (List QualityProfile) :=
  let valid := validQualities inputWidth inputHeight qualities
  if valid.length = 0 then
    Except.error "No valid qualities found for input video resolution"
  else
    Except.ok valid

/-- JavaScript's `Math.round`: nearest integer, ties towards `+∞`. -/
def jsRound (x : ℚ) : Int :=
  Int.floor (x + 1 / 2)

/-- The resolution/bitrate actually passed to the encoder for one quality. -/
structure FinalEncodeSettings where
  resolution : String
  bitrate : Int
deriving DecidableEq

/-- The no-upscale adjustment of `FFmpegService.transcodeQuality`
(ffmpeg.service.ts lines 40-62): when the input is smaller than the target
in either dimension, encode at the input resolution with the bitrate
scaled by the pixel-count ratio and rounded; otherwise keep the requested
resolution and bitrate.  A `NaN` target (unparseable resolution) makes
both `<` comparisons false, so the requested settings are kept. -/
def computeFinalQuality (inputWidth inputHeight : Nat)
    (q : QualityProfile) : FinalEncodeSettings :=
  match parseResolution q.resolution with
  | some (targetWidth, targetHeight) =>
    if inputWidth < targetWidth || inputHeight < targetHeight then
      { resolution := toString inputWidth ++ "x" ++ toString inputHeight
        bitrate := jsRound ((q.bitrate : ℚ) *
          (((inputWidth : ℚ) * (inputHeight : ℚ)) /
            ((targetWidth : ℚ) * (targetHeight : ℚ)))) }
    else
      { resolution := q.resolution, bitrate := (q.bitrate : Int) }
  | none => { resolution := q.resolution, bitrate := (q.bitrate : Int) }

/-- One `#EXT-X-STREAM-INF` entry of
`HLSPlaylistService.createMasterPlaylistContent`
(hls-playlist.service.ts lines 43-46). -/
def masterPlaylistEntry (q : QualityProfile) : String :=
  "#EXT-X-STREAM-INF:BANDWIDTH=" ++ toString q.bitrate ++ ",RESOLUTION=" ++
    q.resolution ++ "\n" ++ q.name ++ "/playlist.m3u8\n"

/-- `HLSPlaylistService.createMasterPlaylistContent`
(hls-playlist.service.ts lines 40-49): header, then one entry per profile
in the order the list was given. -/
def createMasterPlaylistContent (qualities : List QualityProfile) : String :=
  qualities.foldl (fun content q => content ++ masterPlaylistEntry q)
    "#EXTM3U\n#EXT-X-VERSION:3\n"

/-- The error classification of `ErrorHandlerService.handleError`
(error-handler.service.ts lines 21-44): match substrings of the message,
returning the error type and whether it is retryable. -/
def classifyError (message : String) : String × Bool :=
  if strIncludes message "ENOENT" || strIncludes message "not found" then
    ("FILE_NOT_FOUND", false)
  else if strIncludes message "ENOSPC" || strIncludes message "disk" then
    ("DISK_SPACE_ERROR", true)
  else if strIncludes message "ffmpeg" || strIncludes message "codec" then
    ("TRANSCODING_ERROR", true)
  else if strIncludes message "timeout" || strIncludes message "ETIMEDOUT" then
    ("TIMEOUT_ERROR", true)
  else
    ("UNKNOWN_ERROR", false)

/-- `ErrorHandlerService.getRecoveryStrategy`
(error-handler.service.ts lines 57-68): `(maxRetries, backoffMs)` per
error type. -/
def getRecoveryStrategy (errorType : String) : Nat × Nat :=
  if errorType = "DISK_SPACE_ERROR" then (1, 60000)
  else if errorType = "TIMEOUT_ERROR" then (2, 30000)
  else if errorType = "TRANSCODING_ERROR" then (3, 10000)
  else (1, 5000)

/-- The Bull queue's `defaultJobOptions.attempts`
(transcoding-queue.ts line 14). -/
def queueDefaultJobAttempts : Nat := 3

/-- The Bull queue's `defaultJobOptions.backoff.type`
(transcoding-queue.ts line 16). -/
def queueDefaultBackoffType : String := "exponential"

/-- The Bull queue's `defaultJobOptions.backoff.delay` in milliseconds
(transcoding-queue.ts line 17). -/
def queueDefaultBackoffDelayMs : Nat := 2000

/-- The default 360p profile, with the bitrate used throughout the
repository's tests. -/
def profile360 : QualityProfile :=
  { name := "360p", resolution := "640x360", bitrate := 800 }

/-- The default 720p profile. -/
def profile720 : QualityProfile :=
  { name := "720p", resolution := "1280x720", bitrate := 2500 }

/-- The default 1080p profile. -/
def profile1080 : QualityProfile :=
  { name := "1080p", resolution := "1920x1080", bitrate := 5000 }

/-- The default requested catalog `[360p, 720p, 1080p]`. -/
def stdCatalog : List QualityProfile := [profile360, profile720, profile1080]

/-- C1: a profile survives `transcodeMultiQuality`'s filter exactly when
`sourceW/targetW ≥ 0.8` and `sourceH/targetH ≥ 0.8`; an 854×480 source
with the default catalog keeps only 360p, and a 1920×1080 source keeps
all three profiles. -/
theorem C1_tolerance_filter :
    (∀ (inW inH : Nat) (qs : List QualityProfile) (q : QualityProfile)
        (tW tH : Nat), parseResolution q.resolution = some (tW, tH) →
      (q ∈ validQualities inW inH qs ↔
        q ∈ qs ∧ (0.8 : ℚ) ≤ (inW : ℚ) / (tW : ℚ) ∧
          (0.8 : ℚ) ≤ (inH : ℚ) / (tH : ℚ))) ∧
    validQualities 854 480 stdCatalog = [profile360] ∧
    validQualities 1920 1080 stdCatalog = stdCatalog := by
  refine ⟨?_, by rw [validQualities_eval]; decide,
    by rw [validQualities_eval]; decide⟩
  intro inW inH qs q tW tH hparse
  unfold validQualities
  rw [List.mem_filter]
  unfold qualityPasses
  rw [hparse]
  simp [Bool.and_eq_true, decide_eq_true_iff, and_assoc]

/-- Witness for C1 at concrete inputs: with an 854×480 source, the 720p
profile (target 1280×720) is not retained because `854/1280 < 0.8`. -/
theorem C1_tolerance_filter_witness :
    profile720 ∈ validQualities 854 480 stdCatalog ↔
      profile720 ∈ stdCatalog ∧ (0.8 : ℚ) ≤ (854 : ℚ) / (1280 : ℚ) ∧
        (0.8 : ℚ) ≤ (480 : ℚ) / (720 : ℚ) :=
  C1_tolerance_filter.1 854 480 stdCatalog profile720 1280 720 (by decide)

instance exceptDecEq {ε α : Type} [DecidableEq ε] [DecidableEq α] :
    DecidableEq (Except ε α) := fun x y =>
  match x, y with
  | Except.ok a, Except.ok b =>
    if h : a = b then isTrue (by rw [h])
    else isFalse (fun hc => h (by cases hc; rfl))
  | Except.ok _, Except.error _ => isFalse (fun hc => Except.noConfusion hc)
  | Except.error _, Except.ok _ => isFalse (fun hc => Except.noConfusion hc)
  | Except.error e, Except.error f =>
    if h : e = f then isTrue (by rw [h])
    else isFalse (fun hc => h (by cases hc; rfl))

/-- C4 counterexample: a 640×360 source with the single requested profile
1080p.  The profile fails the tolerance check, and `transcodeMultiQuality`
throws instead of rescaling the single best candidate, so the transcode
proceeds with zero variants for a perfectly valid input. -/
theorem C4_no_rescue_counterexample :
    multiQualitySelect 640 360 [profile1080] =
      Except.error "No valid qualities found for input video resolution" := by
  simp only [multiQualitySelect, validQualities_eval]
  decide

/-- C4 amended: a profile that fails the 0.8 tolerance check is discarded
even when it is the only candidate; whenever every requested profile fails
the check, `transcodeMultiQuality` aborts with
`"No valid qualities found for input video resolution"` rather than
rescaling anything.  (Rescaling in `transcodeQuality` applies only to
profiles that already passed the filter.) -/
theorem C4_sole_candidate_discarded (inW inH : Nat)
    (qs : List QualityProfile)
    (h : ∀ q ∈ qs, qualityPasses inW inH q = false) :
    multiQualitySelect inW inH qs =
      Except.error "No valid qualities found for input video resolution" := by
  unfold multiQualitySelect validQualities
  have hnil : qs.filter (qualityPasses inW inH) = [] := by
    rw [List.filter_eq_nil_iff]
    intro q hq
    simp [h q hq]
  simp [hnil]

/-- Witness for C4's amended claim at a concrete input. -/
theorem C4_sole_candidate_discarded_witness :
    multiQualitySelect 100 100 [profile720] =
      Except.error "No valid qualities found for input video resolution" :=
  C4_sole_candidate_discarded 100 100 [profile720]
    (by
      intro q hq
      simp only [List.mem_singleton] at hq
      subst hq
      rw [qualityPasses_eval]
      decide)

/-- C9: `transcodeQuality` rescales exactly when the target exceeds the
source in either dimension — resolution becomes the source's `"WxH"` and
bitrate becomes `Math.round(bitrate * (sourceW*sourceH)/(targetW*targetH))`
— and otherwise keeps the requested resolution and bitrate. -/
theorem C9_no_upscale_rescale (inW inH : Nat) (q : QualityProfile)
    (tW tH : Nat) (hparse : parseResolution q.resolution = some (tW, tH)) :
    (inW < tW ∨ inH < tH →
      computeFinalQuality inW inH q =
        { resolution := toString inW ++ "x" ++ toString inH
          bitrate := jsRound ((q.bitrate : ℚ) *
            (((inW : ℚ) * (inH : ℚ)) / ((tW : ℚ) * (tH : ℚ)))) }) ∧
    (tW ≤ inW ∧ tH ≤ inH →
      computeFinalQuality inW inH q =
        { resolution := q.resolution, bitrate := (q.bitrate : Int) }) := by
  constructor
  · intro hlt
    unfold computeFinalQuality
    rw [hparse]
    have : (decide (inW < tW) || decide (inH < tH)) = true := by
      rcases hlt with h | h <;> simp [h]
    simp only [this, if_true]
  · intro ⟨h1, h2⟩
    unfold computeFinalQuality
    rw [hparse]
    have : (decide (inW < tW) || decide (inH < tH)) = false := by
      simp [Nat.not_lt.mpr h1, Nat.not_lt.mpr h2]
    simp only [this, Bool.false_eq_true, if_false]

/-- Witness for C9: an 854×480 source asked for the 720p profile
(2500 kbps at 1280×720) is encoded at 854×480 with bitrate
`round(2500 * (854*480)/(1280*720)) = 1112`. -/
theorem C9_no_upscale_rescale_witness :
    computeFinalQuality 854 480 profile720 =
      { resolution := "854x480", bitrate := 1112 } := by
  have h := (C9_no_upscale_rescale 854 480 profile720 1280 720 (by decide)).1
    (Or.inl (by decide))
  rw [h]
  have hsum : ((profile720.bitrate : ℚ) *
      ((((854 : Nat) : ℚ) * ((480 : Nat) : ℚ)) /
        (((1280 : Nat) : ℚ) * ((720 : Nat) : ℚ))) + 1 / 2) =
      (53399 : ℚ) / 48 := by
    norm_num [profile720]
  have hb : jsRound ((profile720.bitrate : ℚ) *
      ((((854 : Nat) : ℚ) * ((480 : Nat) : ℚ)) /
        (((1280 : Nat) : ℚ) * ((720 : Nat) : ℚ)))) = 1112 := by
    unfold jsRound
    rw [hsum, Int.floor_eq_iff]
    constructor <;> norm_num
  rw [FinalEncodeSettings.mk.injEq]
  exact ⟨by decide, hb⟩

/-- C2 (code evaluated at the failing input): for the 360p profile with
bitrate 800 kbps, `createMasterPlaylistContent` emits
`BANDWIDTH=800` — the raw kbps value, not `bitrate × 1000` — although the
repository's own tests expect `BANDWIDTH=800000`. -/
theorem C2_bandwidth_not_scaled :
    createMasterPlaylistContent [profile360] =
      "#EXTM3U\n#EXT-X-VERSION:3\n#EXT-X-STREAM-INF:BANDWIDTH=800,RESOLUTION=640x360\n360p/playlist.m3u8\n" ∧
    strIncludes (createMasterPlaylistContent [profile360]) "BANDWIDTH=800000" =
      false := by
  constructor
  · rfl
  · decide

/-- C3 (code evaluated at the failing input): `createMasterPlaylistContent`
preserves insertion order — given `[1080p, 360p, 720p]` it lists 1080p
(bandwidth 5000) before 360p (bandwidth 800), so the variant order depends
on the input order and is not ascending by bandwidth, although the
repository's own `HLSPlaylistService` test expects `360p, 720p, 1080p`. -/
theorem C3_insertion_order_not_sorted :
    createMasterPlaylistContent [profile1080, profile360, profile720] =
      "#EXTM3U\n#EXT-X-VERSION:3\n#EXT-X-STREAM-INF:BANDWIDTH=5000,RESOLUTION=1920x1080\n1080p/playlist.m3u8\n#EXT-X-STREAM-INF:BANDWIDTH=800,RESOLUTION=640x360\n360p/playlist.m3u8\n#EXT-X-STREAM-INF:BANDWIDTH=2500,RESOLUTION=1280x720\n720p/playlist.m3u8\n" ∧
    createMasterPlaylistContent [profile1080, profile360, profile720] ≠
      createMasterPlaylistContent [profile360, profile720, profile1080] := by
  constructor
  · rfl
  · decide

/-- C6 counterexample: the message produced by a non-zero encoder exit
(`"ffmpeg exited with code 1"`) is classified `TRANSCODING_ERROR` — mere
`ENCODER_ERROR` does not exist in the code's taxonomy — and its recovery
strategy is 3 retries at a fixed 10-second backoff, not a 5-second base;
the queue's own retry uses a 2-second exponential base. -/
theorem C6_classification_counterexample :
    classifyError "ffmpeg exited with code 1" = ("TRANSCODING_ERROR", true) ∧
    (classifyError "ffmpeg exited with code 1").1 ≠ "ENCODER_ERROR" ∧
    getRecoveryStrategy (classifyError "ffmpeg exited with code 1").1 =
      (3, 10000) ∧
    queueDefaultBackoffDelayMs ≠ 5000 := by
  refine ⟨by decide, by decide, by decide, by decide⟩

/-- C6 amended: any failure message mentioning `ffmpeg` that matches none
of the earlier patterns is classified `TRANSCODING_ERROR` with
`retryable = true`; its recovery strategy is up to 3 retries with a fixed
10-second backoff, while the Bull queue independently retries a failed job
up to 3 attempts with exponential backoff from a 2-second base delay; the
encoder driver performs no internal retry. -/
theorem C6_encoder_failure_retry (message : String)
    (h1 : strIncludes message "ENOENT" = false)
    (h2 : strIncludes message "not found" = false)
    (h3 : strIncludes message "ENOSPC" = false)
    (h4 : strIncludes message "disk" = false)
    (h5 : strIncludes message "ffmpeg" = true) :
    classifyError message = ("TRANSCODING_ERROR", true) ∧
    getRecoveryStrategy (classifyError message).1 = (3, 10000) ∧
    queueDefaultJobAttempts = 3 ∧
    queueDefaultBackoffType = "exponential" ∧
    queueDefaultBackoffDelayMs = 2000 := by
  have hc : classifyError message = ("TRANSCODING_ERROR", true) := by
    unfold classifyError
    simp [h1, h2, h3, h4, h5]
  refine ⟨hc, ?_, rfl, rfl, rfl⟩
  rw [hc]
  decide

/-- Witness for C6's amended claim at the concrete non-zero-exit
message. -/
theorem C6_encoder_failure_retry_witness :
    classifyError "ffmpeg exited with code 1" = ("TRANSCODING_ERROR", true) ∧
    getRecoveryStrategy
        (classifyError "ffmpeg exited with code 1").1 = (3, 10000) ∧
    queueDefaultJobAttempts = 3 ∧
    queueDefaultBackoffType = "exponential" ∧
    queueDefaultBackoffDelayMs = 2000 :=
  C6_encoder_failure_retry "ffmpeg exited with code 1"
    (by decide) (by decide) (by decide) (by decide) (by decide)

/-- Abstract filesystem oracle used by the validator: each operation either
succeeds or fails with an error message (a thrown exception in the
source). -/
structure FSE where
  pathExists : String → Except String Bool
  readFile : String → Except String String
  readdir : String → Except String (List String)

/-- `path.join(a, b)` for the simple relative segments used here. -/
def pathJoin (a b : String) : String := a ++ "/" ++ b

/-- `path.join(outputPath, 'master.m3u8')`. -/
def masterFilePath (outputPath : String) : String :=
  pathJoin outputPath "master.m3u8"

/-- `path.join(outputPath, quality.name)`. -/
def qualityDirPath (outputPath : String) (q : QualityProfile) : String :=
  pathJoin outputPath q.name

/-- `path.join(qualityPath, 'playlist.m3u8')`. -/
def qualityPlaylistPath (outputPath : String) (q : QualityProfile) : String :=
  pathJoin (qualityDirPath outputPath q) "playlist.m3u8"

/-- `FFmpegService.countSegments` (ffmpeg.service.ts lines 181-189): list
the directory and count the `.ts` files, returning 0 when the read
fails. -/
def countSegments (fs : FSE) (outputPath : String) : Nat :=
  match fs.readdir outputPath with
  | Except.ok files => (files.filter (fun f => strEndsWith f ".ts")).length
  | Except.error _ => 0

/-- Assignment `record[key] = value` on a JavaScript object modelled as an
insertion-ordered association list. -/
def recordSet (m : List (String × Nat)) (k : String) (v : Nat) :
    List (String × Nat) :=
  if m.any (fun kv => kv.1 == k) then
    m.map (fun kv => if kv.1 == k then (k, v) else kv)
  else m ++ [(k, v)]

/-- The result shape of `FFmpegService.validateTranscodingOutput`. -/
structure ValidationResult where
  valid : Bool
  issues : List String
  segmentCounts : List (String × Nat)
deriving DecidableEq

/-- The per-quality loop of `validateTranscodingOutput`
(ffmpeg.service.ts lines 337-360), accumulating issues and segment counts;
an `Except.error` carries the thrown message together with the counts
recorded before the throw (the mutable `segmentCounts` object). -/
def validateQualitiesGo (fs : FSE) (outputPath : String) :
    List QualityProfile → List String → List (String × Nat) →
      Except (String × List (String × Nat))
        (List String × List (String × Nat))
  | [], issues, counts => Except.ok (issues, counts)
  | q :: rest, issues, counts =>
    match fs.pathExists (qualityPlaylistPath outputPath q) with
    | Except.error e => Except.error (e, counts)
    | Except.ok false =>
      validateQualitiesGo fs outputPath rest
        (issues ++ ["Playlist for " ++ q.name ++ " not found"]) counts
    | Except.ok true =>
      let segmentCount := countSegments fs (qualityDirPath outputPath q)
      let counts1 := recordSet counts q.name segmentCount
      let issues1 :=
        if segmentCount == 0 then
          issues ++ ["No segments found for " ++ q.name]
        else issues
      match fs.readFile (qualityPlaylistPath outputPath q) with
      | Except.error e => Except.error (e, counts1)
      | Except.ok content =>
        let issues2 :=
          if !(strIncludes content "#EXTM3U") ||
              !(strIncludes content "#EXT-X-ENDLIST") then
            issues1 ++ ["Invalid playlist format for " ++ q.name]
          else issues1
        validateQualitiesGo fs outputPath rest issues2 counts1

/-- Packaging of the loop result, including the `catch` branch of
`validateTranscodingOutput` (`valid: issues.length === 0`, or the
`Validation failed: <message>` issue). -/
def finishQualities (fs : FSE) (outputPath : String)
    (qualities : List QualityProfile) (issues0 : List String) :
    ValidationResult :=
  match validateQualitiesGo fs outputPath qualities issues0 [] with
  | Except.error (e, counts) =>
    { valid := false, issues := ["Validation failed: " ++ e]
      segmentCounts := counts }
  | Except.ok (issues, counts) =>
    { valid := issues.length == 0, issues := issues, segmentCounts := counts }

/-- `FFmpegService.validateTranscodingOutput`
(ffmpeg.service.ts lines 317-375): check the master playlist, then every
quality, catching any thrown filesystem error into a
`Validation failed: ...` result. -/
def validateTranscodingOutput (fs : FSE) (outputPath : String)
    (qualities : List QualityProfile) : ValidationResult :=
  match fs.pathExists (masterFilePath outputPath) with
  | Except.error e =>
    { valid := false, issues := ["Validation failed: " ++ e]
      segmentCounts := [] }
  | Except.ok masterPresent =>
    if !masterPresent then
      finishQualities fs outputPath qualities
        ["Master playlist (master.m3u8) not found"]
    else
      match fs.readFile (masterFilePath outputPath) with
      | Except.error e =>
        { valid := false, issues := ["Validation failed: " ++ e]
          segmentCounts := [] }
      | Except.ok masterContent =>
        if !(strIncludes masterContent "#EXTM3U") then
          finishQualities fs outputPath qualities
            ["Master playlist has invalid format"]
        else
          finishQualities fs outputPath qualities []

/-- A quality whose on-disk artifacts are exactly what a successful
transcode leaves behind: a present playlist whose content carries the
`#EXTM3U` header and `#EXT-X-ENDLIST` footer, and at least one `.ts`
segment in the quality directory. -/
def GoodQuality (fs : FSE) (outputPath : String) (q : QualityProfile) : Prop :=
  fs.pathExists (qualityPlaylistPath outputPath q) = Except.ok true ∧
  (∃ c, fs.readFile (qualityPlaylistPath outputPath q) = Except.ok c ∧
    strIncludes c "#EXTM3U" = true ∧ strIncludes c "#EXT-X-ENDLIST" = true) ∧
  0 < countSegments fs (qualityDirPath outputPath q)

theorem validateQualitiesGo_allGood (fs : FSE) (out : String)
    (qs : List QualityProfile) (hgood : ∀ q ∈ qs, GoodQuality fs out q) :
    ∀ (issues : List String) (counts : List (String × Nat)),
      ∃ counts', validateQualitiesGo fs out qs issues counts =
        Except.ok (issues, counts') := by
  induction qs with
  | nil => intro issues counts; exact ⟨counts, rfl⟩
  | cons q rest ih =>
    intro issues counts
    obtain ⟨hex, ⟨c, hread, hc1, hc2⟩, hseg⟩ :=
      hgood q (List.mem_cons_self q rest)
    have hz : (countSegments fs (qualityDirPath out q) == 0) = false := by
      simpa [Nat.beq_eq_true_eq] using Nat.pos_iff_ne_zero.mp hseg
    have hrest : ∀ r ∈ rest, GoodQuality fs out r :=
      fun r hr => hgood r (List.mem_cons_of_mem q hr)
    obtain ⟨counts', hrec⟩ :=
      ih hrest issues (recordSet counts q.name
        (countSegments fs (qualityDirPath out q)))
    refine ⟨counts', ?_⟩
    unfold validateQualitiesGo
    simpa [hex, hz, hread, hc1, hc2] using hrec

theorem validateQualitiesGo_oneMissing (fs : FSE) (out : String)
    (qk : QualityProfile) (post : List QualityProfile)
    (hpost : ∀ q ∈ post, GoodQuality fs out q)
    (hmiss : fs.pathExists (qualityPlaylistPath out qk) = Except.ok false) :
    ∀ (pre : List QualityProfile), (∀ q ∈ pre, GoodQuality fs out q) →
    ∀ (issues : List String) (counts : List (String × Nat)),
      ∃ counts', validateQualitiesGo fs out (pre ++ qk :: post) issues counts =
        Except.ok
          (issues ++ ["Playlist for " ++ qk.name ++ " not found"], counts') := by
  intro pre
  induction pre with
  | nil =>
    intro _ issues counts
    obtain ⟨counts', hrec⟩ := validateQualitiesGo_allGood fs out post hpost
      (issues ++ ["Playlist for " ++ qk.name ++ " not found"]) counts
    refine ⟨counts', ?_⟩
    show validateQualitiesGo fs out (qk :: post) issues counts = _
    unfold validateQualitiesGo
    simpa [hmiss] using hrec
  | cons q pre' ih =>
    intro hpre issues counts
    obtain ⟨hex, ⟨c, hread, hc1, hc2⟩, hseg⟩ :=
      hpre q (List.mem_cons_self q pre')
    have hz : (countSegments fs (qualityDirPath out q) == 0) = false := by
      simpa [Nat.beq_eq_true_eq] using Nat.pos_iff_ne_zero.mp hseg
    have hpre' : ∀ r ∈ pre', GoodQuality fs out r :=
      fun r hr => hpre r (List.mem_cons_of_mem q hr)
    obtain ⟨counts', hrec⟩ := ih hpre' issues
      (recordSet counts q.name (countSegments fs (qualityDirPath out q)))
    refine ⟨counts', ?_⟩
    show validateQualitiesGo fs out (q :: (pre' ++ qk :: post)) issues counts = _
    unfold validateQualitiesGo
    simpa [hex, hz, hread, hc1, hc2] using hrec

theorem masterContent_accum (qs : List QualityProfile) :
    ∀ s : String, ∃ t,
      qs.foldl (fun content q => content ++ masterPlaylistEntry q) s = s ++ t := by
  induction qs with
  | nil =>
    intro s
    refine ⟨"", ?_⟩
    apply String.ext
    rw [String.data_append]
    exact (List.append_nil _).symm
  | cons q rest ih =>
    intro s
    obtain ⟨t, ht⟩ := ih (s ++ masterPlaylistEntry q)
    exact ⟨masterPlaylistEntry q ++ t, by
      rw [List.foldl_cons, ht, String.append_assoc]⟩

theorem strIncludes_after_header (t : String) :
    strIncludes ("#EXTM3U\n#EXT-X-VERSION:3\n" ++ t) "#EXTM3U" = true := rfl

/-- C5: validator round-trip.  (i) A master manifest freshly written by
`generateMasterPlaylist` always passes the `#EXTM3U` header check.
(ii) On a fully built tree the validator returns `valid = true` with no
issues.  (iii) Deleting exactly one quality's playlist yields exactly the
single issue `Playlist for <quality> not found` and none for the untouched
qualities.  (iv) Deleting the master manifest yields `valid = false` with
the issue `Master playlist (master.m3u8) not found`. -/
theorem C5_validator_roundtrip :
    (∀ qs : List QualityProfile,
      strIncludes (createMasterPlaylistContent qs) "#EXTM3U" = true) ∧
    (∀ (fs : FSE) (out : String) (qs : List QualityProfile),
      fs.pathExists (masterFilePath out) = Except.ok true →
      fs.readFile (masterFilePath out) =
        Except.ok (createMasterPlaylistContent qs) →
      (∀ q ∈ qs, GoodQuality fs out q) →
      (validateTranscodingOutput fs out qs).valid = true ∧
      (validateTranscodingOutput fs out qs).issues = []) ∧
    (∀ (fs : FSE) (out : String) (pre post : List QualityProfile)
        (qk : QualityProfile),
      fs.pathExists (masterFilePath out) = Except.ok true →
      fs.readFile (masterFilePath out) =
        Except.ok (createMasterPlaylistContent (pre ++ qk :: post)) →
      (∀ q ∈ pre, GoodQuality fs out q) →
      (∀ q ∈ post, GoodQuality fs out q) →
      fs.pathExists (qualityPlaylistPath out qk) = Except.ok false →
      (validateTranscodingOutput fs out (pre ++ qk :: post)).valid = false ∧
      (validateTranscodingOutput fs out (pre ++ qk :: post)).issues =
        ["Playlist for " ++ qk.name ++ " not found"]) ∧
    (∀ (fs : FSE) (out : String) (qs : List QualityProfile),
      fs.pathExists (masterFilePath out) = Except.ok false →
      (∀ q ∈ qs, GoodQuality fs out q) →
      (validateTranscodingOutput fs out qs).valid = false ∧
      (validateTranscodingOutput fs out qs).issues =
        ["Master playlist (master.m3u8) not found"]) := by
  have hmaster : ∀ qs : List QualityProfile,
      strIncludes (createMasterPlaylistContent qs) "#EXTM3U" = true := by
    intro qs
    obtain ⟨t, ht⟩ := masterContent_accum qs "#EXTM3U\n#EXT-X-VERSION:3\n"
    unfold createMasterPlaylistContent
    rw [ht]
    exact strIncludes_after_header t
  refine ⟨hmaster, ?_, ?_, ?_⟩
  · intro fs out qs hex hread hgood
    obtain ⟨counts', hrec⟩ := validateQualitiesGo_allGood fs out qs hgood [] []
    have hv : validateTranscodingOutput fs out qs =
        finishQualities fs out qs [] := by
      unfold validateTranscodingOutput
      simp [hex, hread, hmaster qs]
    have hf : finishQualities fs out qs [] =
        { valid := true, issues := [], segmentCounts := counts' } := by
      unfold finishQualities
      rw [hrec]
      rfl
    rw [hv, hf]
    exact ⟨rfl, rfl⟩
  · intro fs out pre post qk hex hread hpre hpost hmiss
    obtain ⟨counts', hrec⟩ :=
      validateQualitiesGo_oneMissing fs out qk post hpost hmiss pre hpre [] []
    have hv : validateTranscodingOutput fs out (pre ++ qk :: post) =
        finishQualities fs out (pre ++ qk :: post) [] := by
      unfold validateTranscodingOutput
      simp [hex, hread, hmaster (pre ++ qk :: post)]
    have hf : finishQualities fs out (pre ++ qk :: post) [] =
        { valid := false
          issues := ["Playlist for " ++ qk.name ++ " not found"]
          segmentCounts := counts' } := by
      unfold finishQualities
      rw [hrec]
      rfl
    rw [hv, hf]
    exact ⟨rfl, rfl⟩
  · intro fs out qs hex hgood
    obtain ⟨counts', hrec⟩ := validateQualitiesGo_allGood fs out qs hgood
      ["Master playlist (master.m3u8) not found"] []
    have hv : validateTranscodingOutput fs out qs =
        finishQualities fs out qs
          ["Master playlist (master.m3u8) not found"] := by
      unfold validateTranscodingOutput
      simp [hex]
    have hf : finishQualities fs out qs
        ["Master playlist (master.m3u8) not found"] =
        { valid := false
          issues := ["Master playlist (master.m3u8) not found"]
          segmentCounts := counts' } := by
      unfold finishQualities
      rw [hrec]
      rfl
    rw [hv, hf]
    exact ⟨rfl, rfl⟩

/-- A concrete one-quality output tree used to witness the validator
claims. -/
def demoGoodFS : FSE where
  pathExists := fun p =>
    Except.ok (p == "/out/master.m3u8" || p == "/out/360p/playlist.m3u8")
  readFile := fun p =>
    if p == "/out/master.m3u8" then
      Except.ok (createMasterPlaylistContent [profile360])
    else if p == "/out/360p/playlist.m3u8" then
      Except.ok "#EXTM3U\n#EXT-X-VERSION:3\n#EXTINF:10.0,\nsegment_000.ts\n#EXT-X-ENDLIST\n"
    else Except.error "ENOENT"
  readdir := fun p =>
    if p == "/out/360p" then Except.ok ["playlist.m3u8", "segment_000.ts"]
    else Except.error "ENOENT"

/-- Witness for C5 on the concrete tree `demoGoodFS`. -/
theorem C5_validator_roundtrip_witness :
    (validateTranscodingOutput demoGoodFS "/out" [profile360]).valid = true ∧
    (validateTranscodingOutput demoGoodFS "/out" [profile360]).issues = [] :=
  C5_validator_roundtrip.2.1 demoGoodFS "/out" [profile360] rfl rfl
    (by
      intro q hq
      simp only [List.mem_singleton] at hq
      subst hq
      refine ⟨rfl, ⟨_, rfl, by decide, by decide⟩, by decide⟩)

theorem finishQualities_valid_iff (fs : FSE) (out : String)
    (qs : List QualityProfile) (issues0 : List String) :
    (finishQualities fs out qs issues0).valid = true ↔
      (finishQualities fs out qs issues0).issues = [] := by
  unfold finishQualities
  cases h : validateQualitiesGo fs out qs issues0 [] with
  | error ec =>
    obtain ⟨e, counts⟩ := ec
    simp
  | ok r =>
    obtain ⟨issues, counts⟩ := r
    simp [Nat.beq_eq_true_eq, List.length_eq_zero]

/-- C8: the validator is total and structured — its `valid` flag is `true`
exactly when the issue list is empty, for every filesystem state including
missing, partial, and erroring ones; and when a filesystem operation
throws, the validator returns `valid = false` with the descriptive
`Validation failed: <message>` issue instead of propagating the
exception. -/
theorem C8_validator_never_throws :
    (∀ (fs : FSE) (out : String) (qs : List QualityProfile),
      (validateTranscodingOutput fs out qs).valid = true ↔
        (validateTranscodingOutput fs out qs).issues = []) ∧
    (∀ (fs : FSE) (out : String) (qs : List QualityProfile) (e : String),
      fs.pathExists (masterFilePath out) = Except.error e →
      validateTranscodingOutput fs out qs =
        { valid := false, issues := ["Validation failed: " ++ e]
          segmentCounts := [] }) ∧
    (∀ (fs : FSE) (out : String) (qs : List QualityProfile) (e : String),
      fs.pathExists (masterFilePath out) = Except.ok true →
      fs.readFile (masterFilePath out) = Except.error e →
      validateTranscodingOutput fs out qs =
        { valid := false, issues := ["Validation failed: " ++ e]
          segmentCounts := [] }) := by
  refine ⟨?_, ?_, ?_⟩
  · intro fs out qs
    unfold validateTranscodingOutput
    cases hex : fs.pathExists (masterFilePath out) with
    | error e => simp
    | ok b =>
      cases b with
      | false => simpa using finishQualities_valid_iff fs out qs _
      | true =>
        cases hread : fs.readFile (masterFilePath out) with
        | error e => simp
        | ok content =>
          cases hinc : strIncludes content "#EXTM3U" with
          | false => simpa [hinc] using finishQualities_valid_iff fs out qs _
          | true => simpa [hinc] using finishQualities_valid_iff fs out qs _
  · intro fs out qs e hex
    unfold validateTranscodingOutput
    rw [hex]
  · intro fs out qs e hex hread
    unfold validateTranscodingOutput
    simp [hex, hread]

/-- A filesystem oracle whose every operation throws. -/
def demoErrFS : FSE where
  pathExists := fun _ => Except.error "boom"
  readFile := fun _ => Except.error "boom"
  readdir := fun _ => Except.error "boom"

/-- Witness for C8 on the all-throwing filesystem. -/
theorem C8_validator_never_throws_witness :
    validateTranscodingOutput demoErrFS "/out" [profile360] =
      { valid := false, issues := ["Validation failed: boom"]
        segmentCounts := [] } :=
  C8_validator_never_throws.2.1 demoErrFS "/out" [profile360] "boom" rfl

/-- `fs.pathExists` over a filesystem modelled as a list of
`(path, content)` files: a path is present when a file is stored at it or
underneath it. -/
def fsPathPresent (fs : List (String × String)) (p : String) : Bool :=
  fs.any (fun f => f.1 == p || strStartsWith f.1 (p ++ "/"))

/-- `fs.remove(p)`: delete the file or directory tree rooted at `p`. -/
def fsRemoveTree (fs : List (String × String)) (p : String) :
    List (String × String) :=
  fs.filter (fun f => !(f.1 == p || strStartsWith f.1 (p ++ "/")))

/-- The fields of a queued `TranscodingJob` used by the simple worker. -/
structure SimpleJob where
  jobId : String
  inputPath : String
  outputPath : String

/-- `SimpleTranscodingWorker.processJob` (simple-worker.ts lines 50-122):
validate the input, run the external transcoder (modelled by the
`transcodeRun` oracle, which returns the `result.success` flag and the
filesystem after its writes), verify the master playlist, and on any
failure remove the job's output directory (when it exists) before
rethrowing.  The result is the error message and final filesystem on
failure, or the final filesystem on success. -/
def processJob
    (transcodeRun : List (String × String) → Bool × List (String × String))
    (fs : List (String × String)) (job : SimpleJob) :
    Except (String × List (String × String)) (List (String × String)) :=
  let cleanupFail := fun (msg : String) (fs1 : List (String × String)) =>
    Except.error (msg,
      if fsPathPresent fs1 job.outputPath then fsRemoveTree fs1 job.outputPath
      else fs1)
  if !(fsPathPresent fs job.inputPath) then
    cleanupFail ("Input file not found: " ++ job.inputPath) fs
  else
    let r := transcodeRun fs
    if !r.1 then
      cleanupFail "Transcoding failed - no result or unsuccessful" r.2
    else if !(fsPathPresent r.2 (pathJoin job.outputPath "master.m3u8")) then
      cleanupFail "Transcoding completed but master playlist not found" r.2
    else
      Except.ok r.2

theorem cleanup_leaves_no_output (fs1 : List (String × String))
    (out : String) :
    ∀ f ∈ (if fsPathPresent fs1 out then fsRemoveTree fs1 out else fs1),
      (f.1 == out || strStartsWith f.1 (out ++ "/")) = false := by
  by_cases h : fsPathPresent fs1 out = true
  · rw [if_pos h]
    intro f hf
    have := List.of_mem_filter hf
    simpa using this
  · rw [if_neg h]
    intro f hf
    have hfalse : fsPathPresent fs1 out = false := by
      cases hb : fsPathPresent fs1 out with
      | false => rfl
      | true => exact absurd hb h
    unfold fsPathPresent at hfalse
    rw [List.any_eq_false] at hfalse
    have := hfalse f hf
    simpa using this

/-- C10: whenever `processJob` fails — for any transcoder behaviour, any
starting filesystem and any job — the filesystem it leaves behind contains
no file at or beneath the job's output directory: a FAILED job leaves no
partial output tree for its `jobId`. -/
theorem C10_failed_job_leaves_no_output
    (transcodeRun : List (String × String) → Bool × List (String × String))
    (fs : List (String × String)) (job : SimpleJob)
    (msg : String) (fs1 : List (String × String))
    (h : processJob transcodeRun fs job = Except.error (msg, fs1)) :
    ∀ f ∈ fs1,
      (f.1 == job.outputPath ||
        strStartsWith f.1 (job.outputPath ++ "/")) = false := by
  have key : ∃ X, fs1 =
      (if fsPathPresent X job.outputPath then fsRemoveTree X job.outputPath
        else X) := by
    unfold processJob at h
    dsimp only at h
    by_cases h1 : fsPathPresent fs job.inputPath = true
    · rw [if_neg (by simp [h1])] at h
      by_cases h2 : (transcodeRun fs).1 = true
      · rw [if_neg (by simp [h2])] at h
        by_cases h3 : fsPathPresent (transcodeRun fs).2
            (pathJoin job.outputPath "master.m3u8") = true
        · rw [if_neg (by simp [h3])] at h
          simp at h
        · rw [Bool.not_eq_true] at h3
          rw [if_pos (by simp [h3])] at h
          simp only [Except.error.injEq, Prod.mk.injEq] at h
          exact ⟨(transcodeRun fs).2, h.2.symm⟩
      · rw [Bool.not_eq_true] at h2
        rw [if_pos (by simp [h2])] at h
        simp only [Except.error.injEq, Prod.mk.injEq] at h
        exact ⟨(transcodeRun fs).2, h.2.symm⟩
    · rw [Bool.not_eq_true] at h1
      rw [if_pos (by simp [h1])] at h
      simp only [Except.error.injEq, Prod.mk.injEq] at h
      exact ⟨fs, h.2.symm⟩
  obtain ⟨X, hX⟩ := key
  rw [hX]
  exact cleanup_leaves_no_output X job.outputPath

/-- A transcoder run that fails after writing a partial 360p segment. -/
def demoFailingRun (fs : List (String × String)) :
    Bool × List (String × String) :=
  (false, fs ++ [("out/360p/segment_000.ts", "partial")])

/-- The starting filesystem for the C10 witness: just the uploaded input
file. -/
def demoStartFS : List (String × String) := [("in/video.mp4", "video")]

/-- The job used by the C10 witness. -/
def demoJob : SimpleJob :=
  { jobId := "job-1", inputPath := "in/video.mp4", outputPath := "out" }

/-- Witness for C10: running the failing transcoder leaves the surviving
file `in/video.mp4` outside the removed output tree. -/
theorem C10_failed_job_leaves_no_output_witness :
    ((("in/video.mp4", "video") : String × String).1 == "out" ||
      strStartsWith (("in/video.mp4", "video") : String × String).1
        ("out" ++ "/")) = false :=
  C10_failed_job_leaves_no_output demoFailingRun demoStartFS demoJob
    "Transcoding failed - no result or unsuccessful"
    [("in/video.mp4", "video")] (by decide) ("in/video.mp4", "video")
    (by decide)

